import Mathlib

/-!
Shallow embedding of the generic bounded worker pool of
`go-competition-crawler` (`internal/worker_pool/worker_pool.go` and the
richer variant carrying `WaitAllDone`).

The Go program is built from two bounded channels (`submitChan`,
`resultChan`), a fixed set of worker goroutines draining the submission
queue, and a per-submission future (`Handle`).  We embed:

* Go buffered channels as an explicit `Chan` state with the three
  observable outcomes of a send (success, suspension when the buffer is
  full, runtime panic when the channel is closed) and of a receive
  (success, suspension when the buffer is empty and the channel open,
  zero-value / loop-exit when the channel is closed and drained);
* a task `func() (T, error)` as its identifier together with the
  `(value, error)` pair the body returns — the pool never looks inside
  a task, so a task is observationally its outcome;
* the worker loop `runWorker` as the in-order map of the task body over
  the slice of the queue that worker dequeues;
* the distribution of the FIFO submission queue among `w` workers as an
  inductive `Routes` relation (each queued task is received by exactly
  one worker, per-worker order follows queue order), and the shared
  result stream after a completed run as any permutation of the
  per-worker publication sequences.

Go `error` values are embedded as `Option String` (`none` = `nil`), and
Go's zero value of `T` as `default` of an `Inhabited` instance.
-/

namespace WorkerPool

/-- Go `error`: `nil` or a message. -/
abbrev Err := String

/-- Embeds `result[T]` of worker_pool.go: the `(error, value)` pair a
worker publishes for one executed task. -/
structure GoResult (T : Type) where
  e : Option Err
  v : T
deriving Repr, DecidableEq

/-- Embeds a submitted task `func() (T, error)`: `id` is its submission
identity (used only to state exactly-once execution), `run` the pair the
body returns when executed. -/
structure GoTask (T : Type) where
  id : Nat
  run : T × Option Err
deriving Repr, DecidableEq

/-- A bounded Go channel: buffered FIFO contents, capacity, closed flag. -/
structure Chan (α : Type) where
  buf : List α
  cap : Nat
  closed : Bool
deriving Repr, DecidableEq

/-- Outcome of a Go channel send `c <- a`. -/
inductive SendOutcome (α : Type) where
  /-- The element was enqueued. -/
  | ok (c : Chan α)
  /-- The buffer is at capacity: the sending goroutine suspends until a
  receiver frees space (a blocking wait, not a busy-poll). -/
  | blocked
  /-- Send on a closed channel: a fatal runtime panic in Go. -/
  | panicked
deriving Repr, DecidableEq

/-- Go send on a buffered channel. -/
def Chan.send (c : Chan α) (a : α) : SendOutcome α :=
  if c.closed then .panicked
  else if c.buf.length < c.cap then .ok { c with buf := c.buf ++ [a] }
  else .blocked

/-- Outcome of a Go channel receive `<-c`. -/
inductive RecvOutcome (α : Type) where
  /-- An element was dequeued. -/
  | ok (a : α) (c : Chan α)
  /-- Channel closed and drained: receive yields the zero value
  (`ok = false`); a `range` loop exits here. -/
  | closedEmpty
  /-- Buffer empty, channel open: the receiving goroutine suspends. -/
  | blocked
deriving Repr, DecidableEq

/-- Go receive on a buffered channel. -/
def Chan.recv (c : Chan α) : RecvOutcome α :=
  match c.buf with
  | a :: rest => .ok a { c with buf := rest }
  | [] => if c.closed then .closedEmpty else .blocked

/-- Embeds `Handle[T]`: the cached `state` and the `invoked` flag.  The
Go struct also stores the receiving end of the shared `resultChan`; in
the embedding that shared channel is passed to `Handle.wait` explicitly. -/
structure Handle (T : Type) where
  state : GoResult T
  invoked : Bool
deriving Repr, DecidableEq

/-- Outcome of `Handle.Get()`. -/
inductive GetOutcome (T : Type) where
  /-- Returns `(v, e)`; `h` and `c` are the handle and shared stream
  afterwards. -/
  | ok (v : T) (e : Option Err) (h : Handle T) (c : Chan (GoResult T))
  /-- No result available yet on the open stream: the caller suspends. -/
  | blocked
deriving Repr, DecidableEq

/-- Embeds `Handle.wait`: if `invoked` is `false`, receive one result
from the shared stream into `state`.  Faithful to the source: the
`invoked` flag is NOT set to `true` after the receive. -/
def Handle.wait [Inhabited T] (h : Handle T) (c : Chan (GoResult T)) :
    Option (Handle T × Chan (GoResult T)) :=
  if h.invoked then some (h, c)
  else
    match c.recv with
    | .ok r c2 => some ({ h with state := r }, c2)
    | .closedEmpty => some ({ h with state := { e := none, v := default } }, c)
    | .blocked => none

/-- Embeds `Handle.Get`: `wait()` then return the cached pair. -/
def Handle.get [Inhabited T] (h : Handle T) (c : Chan (GoResult T)) :
    GetOutcome T :=
  match h.wait c with
  | some (h2, c2) => .ok h2.state.v h2.state.e h2 c2
  | none => .blocked

/-- Embeds `workerPoolImpl[T]`: the two bounded channels plus the number
of worker goroutines started at construction (`wg.Add(workers)` and the
spawn loop). -/
structure PoolState (T : Type) where
  workers : Nat
  started : Nat
  submitChan : Chan (GoTask T)
  resultChan : Chan (GoResult T)
deriving Repr, DecidableEq

/-- Outcome of `workerPoolImpl.Submit`. -/
inductive SubmitOutcome (T : Type) where
  /-- Submit returned, yielding a handle and an error value. -/
  | ok (h : Handle T) (e : Option Err) (st : PoolState T)
  /-- The submission queue is at capacity: the caller suspends. -/
  | blocked
  /-- Send on the closed submission queue: fatal runtime panic. -/
  | panicked
deriving Repr, DecidableEq

/-- Embeds `workerPoolImpl.Submit`: send the task into `submitChan`,
then return a fresh unresolved handle (`state` the zero value
`result[T]{}`, `invoked` false) paired with a `nil` error. -/
def PoolState.submit [Inhabited T] (st : PoolState T) (t : GoTask T) :
    SubmitOutcome T :=
  match st.submitChan.send t with
  | .ok c => .ok { state := { e := none, v := default }, invoked := false }
      none { st with submitChan := c }
  | .blocked => .blocked
  | .panicked => .panicked

/-- Embeds `workerPoolImpl.Done` of `internal/worker_pool/worker_pool.go`
(lines 62–64): close the submission queue. -/
def PoolState.done (st : PoolState T) : PoolState T :=
  { st with submitChan := { st.submitChan with closed := true } }

/-- Default queue capacity, `var defaultCapacity = Capacity(32)`. -/
def defaultCapacity : Nat := 32

/-- Default worker count, `var defaultWorkers = Workers(runtime.NumCPU())`:
the host's parallelism, a parameter of the embedding. -/
def defaultWorkers (numCPU : Nat) : Nat := numCPU

/-- Embeds `NewWorkerPoolWithCapacity`: both channels are created open
and empty with the same capacity, and all `workers` worker loops are
started immediately. -/
def newWorkerPoolWithCapacity (T : Type) (workers capacity : Nat) :
    PoolState T :=
  { workers := workers
    started := workers
    submitChan := { buf := [], cap := capacity, closed := false }
    resultChan := { buf := [], cap := capacity, closed := false } }

/-- Embeds `NewWorkerPool`: delegate with the default capacity. -/
def newWorkerPool (T : Type) (workers : Nat) : PoolState T :=
  newWorkerPoolWithCapacity T workers defaultCapacity

/-- Embeds the body of the worker loop for one task: run it and build
the `result[T]` published on `resultChan` — the returned error stored
verbatim in `e`, the returned value stored verbatim in `v`. -/
def execTask (t : GoTask T) : GoResult T :=
  { e := t.run.2, v := t.run.1 }

/-- Embeds `workerPoolImpl.runWorker` for the slice of the submission
queue this worker dequeues: execute each task in dequeue order and
publish its result, in order, never retrying and never stopping on a
task error. -/
def runWorker (tasks : List (GoTask T)) : List (GoResult T) :=
  tasks.map execTask

/-- The ids of the tasks a worker executes, in execution order. -/
def execTrace (tasks : List (GoTask T)) : List Nat :=
  tasks.map GoTask.id

/-- `Routes queue parts`: the FIFO `queue` is distributed among the
workers so that `parts` lists, per worker, the tasks that worker
receives in dequeue order.  Each queued element is received by exactly
one worker, and a worker's elements appear in queue order. -/
inductive Routes {α : Type} : List α → List (List α) → Prop
  | nil (w : Nat) : Routes [] (List.replicate w [])
  | cons (a : α) (l : List α) (pre : List (List α)) (p : List α)
      (post : List (List α)) :
      Routes l (pre ++ p :: post) → Routes (a :: l) (pre ++ (a :: p) :: post)

/-- Embeds `workerPoolImpl.Done` of the `WaitAllDone` variant
(lines 63–67): close the submission queue, wait for the workers to
drain it — the workers publish `rs`, the results of the queued tasks,
onto the result stream behind whatever it already held — then close the
result stream. -/
def PoolState.doneWith (st : PoolState T) (rs : List (GoResult T)) :
    PoolState T :=
  { st with
    submitChan := { st.submitChan with buf := [], closed := true }
    resultChan := { st.resultChan with
                    buf := st.resultChan.buf ++ rs, closed := true } }

/-- The `for h := range w.resultChan` loop of `WaitAllDone`: repeatedly
receive, wrapping each received result in an already-resolved handle
(`state` the result, `invoked` true), until the receive reports the
stream closed and drained.  Defined on the buffer of a closed channel,
which is the only situation in which the loop terminates. -/
def drainLoop : List (GoResult T) → List (Handle T)
  | [] => []
  | r :: rs => { state := r, invoked := true } :: drainLoop rs

/-- Embeds `workerPoolImpl.WaitAllDone` (lines 71–82): `Done()` with the
workers publishing `rs`, then drain the closed result stream into
resolved handles.  Returns the handles and the pool state afterwards. -/
def PoolState.waitAllDone (st : PoolState T) (rs : List (GoResult T)) :
    List (Handle T) × PoolState T :=
  let st2 := st.doneWith rs
  (drainLoop st2.resultChan.buf,
   { st2 with resultChan := { st2.resultChan with buf := [] } })

/-- Modelled from the spec: `DrainAll` described as "Close + blocking
collection of every Result in completion order" — the reference point
`WaitAllDone` is compared against. -/
def drainAllSpec (st : PoolState T) (rs : List (GoResult T)) :
    List (GoResult T) :=
  (st.doneWith rs).resultChan.buf

/-- A complete single-worker run: every submitted task is dequeued by
the one worker in submission order; `WaitAllDone` then drains the
published results. -/
def drainAllSingle (T : Type) (capacity : Nat) (tasks : List (GoTask T)) :
    List (Handle T) :=
  ((newWorkerPoolWithCapacity T 1 capacity).waitAllDone (runWorker tasks)).1

theorem routes_flatten_perm {α : Type} {l : List α} {parts : List (List α)}
    (h : Routes l parts) : parts.flatten.Perm l := by
  induction h with
  | nil w => simp [List.flatten_replicate_nil]
  | cons a l pre p post _ ih =>
      have h1 : (pre ++ (a :: p) :: post).flatten
          = pre.flatten ++ a :: (p ++ post.flatten) := by simp
      have h2 : (pre ++ p :: post).flatten
          = pre.flatten ++ (p ++ post.flatten) := by simp
      rw [h1]
      exact List.perm_middle.trans (by rw [← h2]; exact ih.cons a)

theorem drainLoop_eq_map {T : Type} (rs : List (GoResult T)) :
    drainLoop rs = rs.map (fun r => { state := r, invoked := true }) := by
  induction rs with
  | nil => rfl
  | cons r rs ih => simp [drainLoop, ih]

theorem runWorker_flatten {T : Type} (parts : List (List (GoTask T))) :
    (parts.map runWorker).flatten = parts.flatten.map execTask := by
  induction parts with
  | nil => rfl
  | cons p ps ih => simp [runWorker, ih]

/-- C1: submitting after the pool has begun closing does not return a
recoverable `PoolClosed` error — in both source variants `Submit` sends
on the now-closed submission queue, which is a fatal runtime panic in
Go.  The spec requires a recoverable error here; the code faults. -/
theorem submit_after_done_panics (T : Type) [Inhabited T] (st : PoolState T)
    (t : GoTask T) (rs : List (GoResult T)) :
    st.done.submit t = SubmitOutcome.panicked ∧
    (st.doneWith rs).submit t = SubmitOutcome.panicked := by
  constructor <;>
    simp [PoolState.done, PoolState.doneWith, PoolState.submit, Chan.send]

/-- C2: `Handle.Get` is not idempotent.  `Handle.wait` never sets the
`invoked` flag, so at the failing input — a handle created by `Submit`
on a pool whose stream holds the results `(1, nil)` then `(2, nil)` —
the first `Get` returns `(1, nil)` but leaves `invoked = false`, and the
second `Get` on the returned handle re-reads the shared stream and
returns `(2, nil)`, not the cached pair. -/
theorem handle_get_not_idempotent :
    (Handle.get { state := { e := none, v := 0 }, invoked := false }
        { buf := [{ e := none, v := 1 }, { e := none, v := 2 }],
          cap := 32, closed := true }
      = GetOutcome.ok (1 : Nat) none
          { state := { e := none, v := 1 }, invoked := false }
          { buf := [{ e := none, v := 2 }], cap := 32, closed := true }) ∧
    (Handle.get { state := { e := none, v := 1 }, invoked := false }
        { buf := [{ e := none, v := 2 }], cap := 32, closed := true }
      = GetOutcome.ok (2 : Nat) none
          { state := { e := none, v := 2 }, invoked := false }
          { buf := [], cap := 32, closed := true }) ∧
    (2 : Nat) ≠ 1 := by
  refine ⟨rfl, rfl, by decide⟩

/-- C8: `NewWorkerPool w` builds exactly the pool of
`NewWorkerPoolWithCapacity w defaultCapacity`, where `defaultCapacity`
is the fixed constant 32 and the default worker count `defaultWorkers`
is the host's CPU count; both channels share the given capacity and all
`w` workers are started at construction. -/
theorem newWorkerPool_eq_with_default_capacity (T : Type) (w numCPU c : Nat) :
    newWorkerPool T w = newWorkerPoolWithCapacity T w defaultCapacity ∧
    defaultCapacity = 32 ∧
    defaultWorkers numCPU = numCPU ∧
    (newWorkerPoolWithCapacity T w c).submitChan.cap = c ∧
    (newWorkerPoolWithCapacity T w c).resultChan.cap = c ∧
    (newWorkerPoolWithCapacity T w c).started = w ∧
    (newWorkerPoolWithCapacity T w c).workers = w :=
  ⟨rfl, rfl, rfl, rfl, rfl, rfl, rfl⟩

/-- C9: whenever `Submit` returns (neither suspended on a full queue nor
panicking on a closed one), the error component of its returned pair is
`nil`: the single return statement of the source yields `nil`
unconditionally. -/
theorem submit_returned_error_is_nil {T : Type} [Inhabited T]
    (st : PoolState T) (t : GoTask T) (h : Handle T) (e : Option Err)
    (st2 : PoolState T) (hok : st.submit t = SubmitOutcome.ok h e st2) :
    e = none := by
  unfold PoolState.submit at hok
  cases hc : st.submitChan.send t <;> rw [hc] at hok <;> simp_all

/-- Witness for C9 at a concrete submission on a fresh capacity-32 pool. -/
theorem submit_returned_error_is_nil_witness : (none : Option Err) = none :=
  submit_returned_error_is_nil (newWorkerPoolWithCapacity Nat 1 32)
    { id := 0, run := (1, none) }
    { state := { e := none, v := 0 }, invoked := false } none
    { workers := 1, started := 1
      submitChan := { buf := [{ id := 0, run := (1, none) }],
                      cap := 32, closed := false }
      resultChan := { buf := [], cap := 32, closed := false } }
    rfl

theorem execTrace_flatten {T : Type} (parts : List (List (GoTask T))) :
    (parts.map execTrace).flatten = parts.flatten.map GoTask.id := by
  induction parts with
  | nil => rfl
  | cons p ps ih => simp [execTrace, ih]

/-- C3: in a completed run — every queued task routed to exactly one of
the workers (`Routes`), every published result delivered (`out` an
interleaving, hence a permutation, of the per-worker publication
sequences) — exactly `N` results are produced for `N` submitted tasks,
the results are exactly the one-shot outcomes of the tasks, and the
execution trace runs each task id exactly once. -/
theorem tasks_executed_exactly_once {T : Type} (tasks : List (GoTask T))
    (parts : List (List (GoTask T))) (out : List (GoResult T))
    (hroutes : Routes tasks parts)
    (hout : out.Perm (parts.map runWorker).flatten) :
    out.length = tasks.length ∧
    out.Perm (tasks.map execTask) ∧
    (parts.map execTrace).flatten.Perm (tasks.map GoTask.id) := by
  have hperm := routes_flatten_perm hroutes
  have h1 : out.Perm (tasks.map execTask) :=
    ((runWorker_flatten parts) ▸ hout).trans (hperm.map execTask)
  refine ⟨h1.length_eq.trans (by simp), h1, ?_⟩
  rw [execTrace_flatten]
  exact hperm.map GoTask.id

def taskA : GoTask Nat := { id := 0, run := (1, none) }

def taskB : GoTask Nat := { id := 1, run := (2, some ("b")) }

theorem routesAB : Routes [taskA, taskB] [[taskA], [taskB]] := by
  have base : Routes ([] : List (GoTask Nat)) [[], []] := Routes.nil 2
  have step1 : Routes [taskB] [[], [taskB]] :=
    Routes.cons taskB [] [[]] [] [] base
  exact Routes.cons taskA [taskB] [] [] [[taskB]] step1

/-- Witness for C3: two tasks routed to two workers, results observed in
the swapped interleaving. -/
theorem tasks_executed_exactly_once_witness :
    [execTask taskB, execTask taskA].length = [taskA, taskB].length ∧
    [execTask taskB, execTask taskA].Perm ([taskA, taskB].map execTask) ∧
    ([[taskA], [taskB]].map execTrace).flatten.Perm
      ([taskA, taskB].map GoTask.id) :=
  tasks_executed_exactly_once [taskA, taskB] [[taskA], [taskB]]
    [execTask taskB, execTask taskA] routesAB (by decide)

/-- C4: with one worker the results drained by `WaitAllDone` are exactly
the submitted tasks' outcomes in submission order; in particular the
scenario `[ok(1), fail("x"), ok(3)]` drains to
`[(1, nil), (0, "x"), (3, nil)]` in that exact order. -/
theorem single_worker_drain_in_submission_order :
    (∀ (T : Type) (capacity : Nat) (tasks : List (GoTask T)),
      (drainAllSingle T capacity tasks).map Handle.state
        = tasks.map execTask) ∧
    (drainAllSingle Nat 32
        [{ id := 0, run := (1, none) },
         { id := 1, run := (0, some ("x")) },
         { id := 2, run := (3, none) }]).map
        (fun h => (h.state.v, h.state.e))
      = [(1, none), (0, some ("x")), (3, none)] := by
  constructor
  · intro T capacity tasks
    simp [drainAllSingle, PoolState.waitAllDone, PoolState.doneWith,
      newWorkerPoolWithCapacity, drainLoop_eq_map, runWorker]
  · rfl

/-- C5 counterexample: a task body returning value 5 together with a
non-nil error yields the Result `{e := "boom", v := 5}` — the worker
stores the returned value verbatim, which is not the zero value of the
type. -/
theorem error_result_keeps_returned_value :
    runWorker (T := Nat) [{ id := 0, run := (5, some ("boom")) }]
      = [{ e := some ("boom"), v := 5 }] ∧
    (5 : Nat) ≠ (default : Nat) :=
  ⟨rfl, by decide⟩

/-- C5 amended: a task returning a non-nil error produces a Result whose
error field holds that error verbatim and whose value field holds the
value the task body returned (the type's zero value exactly when the
body follows the Go convention of returning the zero value alongside an
error); the error never aborts sibling tasks — the worker stores it as
data, never retries, and continues with the remaining queue. -/
theorem task_error_stored_as_data {T : Type} (t : GoTask T) (err : Err)
    (herr : t.run.2 = some err) (pre post : List (GoTask T)) :
    (execTask t).e = some err ∧
    (execTask t).v = t.run.1 ∧
    runWorker (pre ++ t :: post)
      = runWorker pre ++ execTask t :: runWorker post := by
  refine ⟨?_, rfl, ?_⟩
  · simp [execTask, herr]
  · simp [runWorker]

/-- Witness for C5 amended at the failing task of the spec's scenario. -/
theorem task_error_stored_as_data_witness :
    (execTask (T := Nat) { id := 1, run := (0, some ("x")) }).e
      = some ("x") ∧
    (execTask (T := Nat) { id := 1, run := (0, some ("x")) }).v
      = ({ id := 1, run := (0, some ("x")) } : GoTask Nat).run.1 ∧
    runWorker ([{ id := 0, run := (7, none) }]
        ++ { id := 1, run := (0, some ("x")) }
        :: [{ id := 2, run := (3, none) }])
      = runWorker [{ id := 0, run := (7, none) }]
        ++ execTask { id := 1, run := (0, some ("x")) }
        :: runWorker [{ id := 2, run := (3, none) }] :=
  task_error_stored_as_data { id := 1, run := (0, some ("x")) } ("x") rfl
    [{ id := 0, run := (7, none) }] [{ id := 2, run := (3, none) }]

/-- C6: `WaitAllDone` is `Done` followed by the blocking collection of
every Result in completion order - it yields one resolved handle per
published Result, in stream order, and afterwards the result stream is
closed and fully drained (and the submission queue closed). -/
theorem waitAllDone_is_close_then_collect {T : Type} (st : PoolState T)
    (rs : List (GoResult T)) :
    (st.waitAllDone rs).1
      = (drainAllSpec st rs).map (fun r => { state := r, invoked := true }) ∧
    drainAllSpec st rs = st.resultChan.buf ++ rs ∧
    (st.waitAllDone rs).2.resultChan.closed = true ∧
    (st.waitAllDone rs).2.resultChan.buf = [] ∧
    (st.waitAllDone rs).2.submitChan.closed = true := by
  refine ⟨?_, rfl, rfl, rfl, rfl⟩
  simp [PoolState.waitAllDone, drainAllSpec, drainLoop_eq_map]

/-- C7: when the submission queue holds `cap` tasks and is open, Submit
suspends the caller (a blocking channel send, not a busy-poll); and as
soon as a worker dequeues one task, the blocked Submit completes,
enqueueing the task at the back of the queue with a fresh unresolved
handle and a nil error. -/
theorem submit_blocks_when_queue_full {T : Type} [Inhabited T]
    (st : PoolState T) (t : GoTask T)
    (hfull : st.submitChan.buf.length = st.submitChan.cap)
    (hopen : st.submitChan.closed = false) :
    st.submit t = SubmitOutcome.blocked ∧
    (∀ t2 c2, st.submitChan.recv = RecvOutcome.ok t2 c2 →
      { st with submitChan := c2 }.submit t
        = SubmitOutcome.ok
            { state := { e := none, v := default }, invoked := false } none
            { st with submitChan := { c2 with buf := c2.buf ++ [t] } }) := by
  constructor
  · simp [PoolState.submit, Chan.send, hopen, hfull]
  · intro t2 c2 hrecv
    unfold Chan.recv at hrecv
    cases hbuf : st.submitChan.buf with
    | nil => rw [hbuf] at hrecv; simp [hopen] at hrecv
    | cons a rest =>
        rw [hbuf] at hrecv
        simp only [RecvOutcome.ok.injEq] at hrecv
        obtain ⟨-, hc2⟩ := hrecv
        have hlen : rest.length < st.submitChan.cap := by
          rw [hbuf] at hfull
          simp at hfull
          omega
        simp [PoolState.submit, Chan.send, ← hc2, hopen, hlen]

def fullPoolW : PoolState Nat :=
  { workers := 1
    started := 1
    submitChan := { buf := [taskA], cap := 1, closed := false }
    resultChan := { buf := [], cap := 1, closed := false } }

/-- Witness for C7: a capacity-1 pool whose queue already holds a task
blocks the next Submit. -/
theorem submit_blocks_when_queue_full_witness :
    fullPoolW.submit taskB = SubmitOutcome.blocked :=
  (submit_blocks_when_queue_full fullPoolW taskB rfl rfl).1

/-- C10: every handle returned by `WaitAllDone` is resolved — `invoked`
is true, its state is one of the published Results, and `Get` returns
the stored pair at once without touching the shared stream — while every
handle returned by `Submit` starts unresolved, with `invoked` false and
the zero-valued cached state. -/
theorem handle_resolution_state {T : Type} [Inhabited T] (st : PoolState T)
    (rs : List (GoResult T)) (c : Chan (GoResult T)) :
    (∀ h, h ∈ (st.waitAllDone rs).1 →
      h.invoked = true ∧
      h.state ∈ drainAllSpec st rs ∧
      h.get c = GetOutcome.ok h.state.v h.state.e h c) ∧
    (∀ t h e st2, st.submit t = SubmitOutcome.ok h e st2 →
      h.invoked = false ∧ h.state = { e := none, v := default }) := by
  constructor
  · intro h hmem
    rw [show (st.waitAllDone rs).1
          = ((st.doneWith rs).resultChan.buf).map
              (fun r => { state := r, invoked := true }) from
        drainLoop_eq_map _] at hmem
    obtain ⟨r, hr, rfl⟩ := List.mem_map.mp hmem
    exact ⟨rfl, hr, rfl⟩
  · intro t h e st2 hok
    unfold PoolState.submit at hok
    cases hc : st.submitChan.send t <;> rw [hc] at hok
    · simp only [SubmitOutcome.ok.injEq] at hok
      obtain ⟨h1, -, -⟩ := hok
      exact ⟨by rw [← h1], by rw [← h1]⟩
    · exact absurd hok (by simp)
    · exact absurd hok (by simp)

/-- Witness for C10: a concrete resolved handle from `WaitAllDone` on a
one-worker pool with one published Result. -/
theorem handle_resolution_state_witness :
    ({ state := { e := none, v := (7 : Nat) }, invoked := true }
        : Handle Nat).invoked = true ∧
    ({ e := none, v := (7 : Nat) } : GoResult Nat)
      ∈ drainAllSpec (newWorkerPoolWithCapacity Nat 1 4)
          [{ e := none, v := 7 }] ∧
    Handle.get { state := { e := none, v := (7 : Nat) }, invoked := true }
        { buf := [], cap := 4, closed := false }
      = GetOutcome.ok 7 none
          { state := { e := none, v := 7 }, invoked := true }
          { buf := [], cap := 4, closed := false } :=
  (handle_resolution_state (newWorkerPoolWithCapacity Nat 1 4)
      [{ e := none, v := 7 }] { buf := [], cap := 4, closed := false }).1
    { state := { e := none, v := 7 }, invoked := true } (by decide)

end WorkerPool
